import Mathlib

/-!
Verification development for the multi-account OAuth token lifecycle manager
of the google-workspace-mcp repository.

The repository's `TokenManager` (src/modules/accounts/token.ts) persists one
token record per account under a credentials directory, detects expiry and
orchestrates refresh.  Its behaviour is pinned down by the specification and
by the unit tests in src/__tests__/modules/accounts/token.test.ts.  The
calendar service wrapper (src/modules/calendar/service.ts) is embedded
directly from its source.
-/

/-- A persisted OAuth token record for one account (spec §3, and the shapes
used throughout token.test.ts).  `refresh_token`, `token_type` and `scope`
may be absent. -/
structure TokenRecord where
  access_token : String
  refresh_token : Option String
  expiry_date : Int
  token_type : Option String
  scope : Option String
deriving DecidableEq

/-- A field value of the plain structured-text (key/value) serialization of a
token record (spec §6: file contents are a key/value serialization of the
Token Record fields). -/
inductive FieldValue where
  | str : String → FieldValue
  | int : Int → FieldValue
deriving DecidableEq

/-- First-match association lookup, the shallow embedding of reading a keyed
entry (a file by name, or a field of a serialized record). -/
def lookupKey {α : Type} (l : List (String × α)) (k : String) : Option α :=
  (l.find? (fun p => p.1 == k)).map (fun p => p.2)

/-- Modelled from the spec: the serialized on-disk content of a token record
(spec §6, "a plain structured-text (key/value) serialization of the Token
Record fields"); optional fields are omitted when absent, matching
JSON.stringify of the record in token.test.ts. -/
def serializeToken (r : TokenRecord) : List (String × FieldValue) :=
  [("access_token", FieldValue.str r.access_token)]
  ++ (match r.refresh_token with
      | some t => [("refresh_token", FieldValue.str t)]
      | none => [])
  ++ [("expiry_date", FieldValue.int r.expiry_date)]
  ++ (match r.token_type with
      | some t => [("token_type", FieldValue.str t)]
      | none => [])
  ++ (match r.scope with
      | some t => [("scope", FieldValue.str t)]
      | none => [])

/-- Read a string field of a serialized record. -/
def getStr (fields : List (String × FieldValue)) (k : String) : Option String :=
  match lookupKey fields k with
  | some (FieldValue.str s) => some s
  | _ => none

/-- Read an integer field of a serialized record. -/
def getInt (fields : List (String × FieldValue)) (k : String) : Option Int :=
  match lookupKey fields k with
  | some (FieldValue.int n) => some n
  | _ => none

/-- Modelled from the spec: parsing the structured-text content back into a
Token Record (the JSON.parse step of loadToken in token.test.ts). -/
def parseToken (fields : List (String × FieldValue)) : Option TokenRecord :=
  match getStr fields "access_token", getInt fields "expiry_date" with
  | some a, some e =>
      some ⟨a, getStr fields "refresh_token", e,
            getStr fields "token_type", getStr fields "scope"⟩
  | _, _ => none

/-- Replace a non-alphanumeric character with the fixed separator `-`
(spec §4.1: "non-alphanumeric characters replaced with a fixed separator";
token.test.ts pins the separator as `-`). -/
def sanitizeChar (c : Char) : Char :=
  if c.isAlphanum then c else '-'

/-- The filesystem-safe transform of an email: every character mapped through
`sanitizeChar`. -/
def sanitizeEmail (email : String) : String :=
  String.mk (email.data.map sanitizeChar)

/-- Modelled from the spec: the file name for an account's token record, the
sanitized email followed by the fixed `.token.json` suffix
(token.test.ts: `test@example.com` ↦ `test-example-com.token.json`). -/
def tokenFileName (email : String) : String :=
  sanitizeEmail email ++ ".token.json"

/-- The credential store: whether the credentials directory exists, and the
files in it (file name ↦ serialized token record). -/
structure Store where
  dirExists : Bool
  files : List (String × List (String × FieldValue))
deriving DecidableEq

/-- A store with no directory and no files (a fresh installation). -/
def emptyStore : Store := ⟨false, []⟩

/-- Modelled from the spec: `saveToken(email, record)` creates the containing
directory if absent (fs.mkdir recursive in token.test.ts) and writes the
serialized record under `tokenFileName email`, fully replacing any previous
content (spec §4.1: full replace, not merge). -/
def saveToken (s : Store) (email : String) (r : TokenRecord) : Store :=
  ⟨true,
   (tokenFileName email, serializeToken r)
     :: s.files.filter (fun p => !(p.1 == tokenFileName email))⟩

/-- Read and parse the file with the given name; a missing file yields
`none`. -/
def loadFile (s : Store) (fname : String) : Option TokenRecord :=
  match lookupKey s.files fname with
  | none => none
  | some content => parseToken content

/-- Modelled from the spec: `loadToken(email)` reads and parses the file
`tokenFileName email`; a missing file is not an error but a "not found"
result, `none` (token.test.ts: ENOENT ↦ null). -/
def loadToken (s : Store) (email : String) : Option TokenRecord :=
  loadFile s (tokenFileName email)

/-- Modelled from the spec: `deleteToken(email)` removes the file
`tokenFileName email`; deleting a non-existent record succeeds silently
(spec §4.1, token.test.ts: ENOENT on unlink is swallowed). -/
def deleteToken (s : Store) (email : String) : Store :=
  ⟨s.dirExists, s.files.filter (fun p => !(p.1 == tokenFileName email))⟩

/-- Token validity status kinds (spec §4.3 and §7 taxonomy, as the string
statuses asserted in token.test.ts). -/
inductive StatusKind where
  | VALID
  | REFRESHED
  | NO_TOKEN
  | REFRESH_FAILED
deriving DecidableEq

/-- The result of `validateToken` (spec §4.3:
`validateToken(email) -> {valid: bool, status, token?, reason?}`). -/
structure TokenStatus where
  valid : Bool
  status : StatusKind
  token : Option TokenRecord
  reason : Option String
deriving DecidableEq

/-- Modelled from the spec: the fixed safety margin subtracted from the
literal expiry ("a small fixed margin, e.g. tens of seconds", spec §4.3
step 2), in epoch milliseconds. -/
def SAFETY_MARGIN : Int := 30000

/-- Modelled from the spec: the record persisted after a successful refresh,
the provider's fresh credentials with the old `refresh_token` preserved when
the provider did not reissue one (spec §4.3 step 3). -/
def applyRefresh (old fresh : TokenRecord) : TokenRecord :=
  { fresh with
    refresh_token := match fresh.refresh_token with
      | some t => some t
      | none => old.refresh_token }

/-- Modelled from the spec: `validateToken(email)` of the TokenManager, whose
implementation file is absent from the sources (only token.test.ts is
present).  Algorithm of spec §4.3: load the record (absent ↦ NO_TOKEN);
test `now ≥ expiry_date - SAFETY_MARGIN`; when not expired return VALID with
the unmodified record; when expired, refresh with the stored refresh token,
persist the refreshed record and return REFRESHED, or on refresh failure
delete the record and return REFRESH_FAILED.  The identity-provider refresh
exchange is the parameter `refresh` (`none` = provider rejects).  The third
component of the result counts the refresh attempts made during the call. -/
def validateToken (refresh : String → Option TokenRecord) (now : Int)
    (s : Store) (email : String) : TokenStatus × Store × Nat :=
  match loadToken s email with
  | none => (⟨false, StatusKind.NO_TOKEN, none, some "No token found"⟩, s, 0)
  | some rec =>
    if now ≥ rec.expiry_date - SAFETY_MARGIN then
      match rec.refresh_token with
      | none =>
          (⟨false, StatusKind.REFRESH_FAILED, none, some "No refresh token available"⟩,
           deleteToken s email, 0)
      | some rt =>
        match refresh rt with
        | some fresh =>
            (⟨true, StatusKind.REFRESHED, some (applyRefresh rec fresh), none⟩,
             saveToken s email (applyRefresh rec fresh), 1)
        | none =>
            (⟨false, StatusKind.REFRESH_FAILED, none, some "Token refresh failed"⟩,
             deleteToken s email, 1)
    else
      (⟨true, StatusKind.VALID, some rec, none⟩, s, 0)

/-- The outcome of acquiring an authenticated calendar client: either a
client whose credentials were set to the token, or a CalendarError with the
given code (src/modules/calendar/service.ts). -/
inductive CalClient where
  | client : TokenRecord → CalClient
  | calError : String → CalClient
deriving DecidableEq

/-- Embedded from src/modules/calendar/service.ts, `getCalendarClient`:
validate the token for the email; when the result is not valid or carries no
token, fail with the CalendarError code AUTH_REQUIRED; otherwise set the
token as the client credentials and return the client. -/
def getCalendarClient (refresh : String → Option TokenRecord) (now : Int)
    (s : Store) (email : String) : CalClient × Store :=
  match validateToken refresh now s email with
  | (ts, sAfter, _) =>
    match ts.valid, ts.token with
    | true, some t => (CalClient.client t, sAfter)
    | _, _ => (CalClient.calError "AUTH_REQUIRED", sAfter)

/-- A provider API error as seen by the calendar wrapper (`error.code` is the
HTTP-style numeric code tested by handleCalendarOperation). -/
structure ApiError where
  code : Int
  msg : String
deriving DecidableEq

/-- Embedded from src/modules/calendar/service.ts, `handleCalendarOperation`:
run the operation; when it throws an error with code 401 or 403, call
validateToken once (its result is the parameter `ts`, a fresh validation) and,
when that yields a valid token, set credentials and run the operation a second
time, returning whatever it produces; in every other case rethrow the original
error.  `op n` is the outcome of the (n+1)-th invocation of the operation; the
result is paired with the number of operation invocations and the number of
validateToken calls made. -/
def handleCalendarOperation {T : Type} (ts : TokenStatus)
    (op : Nat → Except ApiError T) : Except ApiError T × Nat × Nat :=
  match op 0 with
  | Except.ok v => (Except.ok v, 1, 0)
  | Except.error e =>
    if e.code == 401 || e.code == 403 then
      if ts.valid && ts.token.isSome then
        (op 1, 2, 1)
      else
        (Except.error e, 1, 1)
    else
      (Except.error e, 1, 0)

/-- A refresh exchange that the provider always rejects. -/
def refFail : String → Option TokenRecord := fun _ => none

/-- A record whose expiry is 1 ms after the instant 1000000: strictly in the
future there, but within the safety margin. -/
def recNear : TokenRecord := ⟨"A1", some "R1", 1000001, none, none⟩

/-- A store holding `recNear` for account a@x.com. -/
def storeNear : Store := saveToken emptyStore "a@x.com" recNear

/-- A record far from expiry at the instant 0. -/
def recFresh : TokenRecord := ⟨"A9", some "R9", 10000000, none, none⟩

/-- A store holding `recFresh` for account c@x.com. -/
def storeFresh : Store := saveToken emptyStore "c@x.com" recFresh

/-- A record long expired at the instant 3600000. -/
def recExpired : TokenRecord := ⟨"A2", some "R2", 1000, none, none⟩

/-- A store holding `recExpired` for account b@x.com. -/
def storeExpired : Store := saveToken emptyStore "b@x.com" recExpired

/-- The provider's answer to a successful refresh of `recExpired`. -/
def freshTok : TokenRecord := ⟨"A3", some "R2", 7200000, none, none⟩

/-- A refresh exchange that accepts exactly the refresh token R2. -/
def refOk : String → Option TokenRecord :=
  fun rt => if rt == "R2" then some freshTok else none

/-- An operation that fails with HTTP 401 on every invocation. -/
def opAuthFail : Nat → Except ApiError Nat :=
  fun _ => Except.error ⟨401, "Unauthorized"⟩

/-- An operation that fails with HTTP 500 on every invocation. -/
def opServerFail : Nat → Except ApiError Nat :=
  fun _ => Except.error ⟨500, "Server error"⟩

/-- The validateToken result for a never-authenticated account. -/
def noTokenStatus : TokenStatus :=
  ⟨false, StatusKind.NO_TOKEN, none, some "No token found"⟩

/-- A validateToken result carrying a valid token. -/
def validStatus : TokenStatus :=
  ⟨true, StatusKind.VALID, some recFresh, none⟩

theorem parse_serialize (r : TokenRecord) : parseToken (serializeToken r) = some r := by
  rcases r with ⟨a, rt, e, tt, sc⟩
  cases rt <;> cases tt <;> cases sc <;> rfl

theorem loadFile_save (s : Store) (email : String) (r : TokenRecord) :
    loadFile (saveToken s email r) (tokenFileName email) = some r := by
  simp [loadFile, saveToken, lookupKey, List.find?, parse_serialize]

theorem load_save (s : Store) (email : String) (r : TokenRecord) :
    loadToken (saveToken s email r) email = some r :=
  loadFile_save s email r

theorem loadFile_delete (s : Store) (email : String) :
    loadFile (deleteToken s email) (tokenFileName email) = none := by
  have hfind :
      (s.files.filter (fun p => !(p.1 == tokenFileName email))).find?
        (fun p => p.1 == tokenFileName email) = none := by
    rw [List.find?_eq_none]
    intro x hx
    have := (List.mem_filter.mp hx).2
    simpa using this
  simp [loadFile, deleteToken, lookupKey, hfind]

theorem load_delete (s : Store) (email : String) :
    loadToken (deleteToken s email) email = none :=
  loadFile_delete s email

theorem vt_no_token (refresh : String → Option TokenRecord) (now : Int)
    (s : Store) (email : String) (h : loadToken s email = none) :
    validateToken refresh now s email
      = (⟨false, StatusKind.NO_TOKEN, none, some "No token found"⟩, s, 0) := by
  simp [validateToken, h]

theorem vt_valid (refresh : String → Option TokenRecord) (now : Int)
    (s : Store) (email : String) (rec : TokenRecord)
    (hload : loadToken s email = some rec)
    (hcond : ¬ now ≥ rec.expiry_date - SAFETY_MARGIN) :
    validateToken refresh now s email
      = (⟨true, StatusKind.VALID, some rec, none⟩, s, 0) := by
  simp only [validateToken, hload]
  rw [if_neg hcond]

theorem vt_refreshed (refresh : String → Option TokenRecord) (now : Int)
    (s : Store) (email : String) (rec fresh : TokenRecord) (rt : String)
    (hload : loadToken s email = some rec)
    (hcond : now ≥ rec.expiry_date - SAFETY_MARGIN)
    (hrt : rec.refresh_token = some rt)
    (href : refresh rt = some fresh) :
    validateToken refresh now s email
      = (⟨true, StatusKind.REFRESHED, some (applyRefresh rec fresh), none⟩,
         saveToken s email (applyRefresh rec fresh), 1) := by
  simp only [validateToken, hload]
  rw [if_pos hcond]
  simp only [hrt, href]

theorem vt_refresh_failed (refresh : String → Option TokenRecord) (now : Int)
    (s : Store) (email : String) (rec : TokenRecord) (rt : String)
    (hload : loadToken s email = some rec)
    (hcond : now ≥ rec.expiry_date - SAFETY_MARGIN)
    (hrt : rec.refresh_token = some rt)
    (href : refresh rt = none) :
    validateToken refresh now s email
      = (⟨false, StatusKind.REFRESH_FAILED, none, some "Token refresh failed"⟩,
         deleteToken s email, 1) := by
  simp only [validateToken, hload]
  rw [if_pos hcond]
  simp only [hrt, href]

theorem vt_no_refresh_token (refresh : String → Option TokenRecord) (now : Int)
    (s : Store) (email : String) (rec : TokenRecord)
    (hload : loadToken s email = some rec)
    (hcond : now ≥ rec.expiry_date - SAFETY_MARGIN)
    (hrt : rec.refresh_token = none) :
    validateToken refresh now s email
      = (⟨false, StatusKind.REFRESH_FAILED, none, some "No refresh token available"⟩,
         deleteToken s email, 0) := by
  simp only [validateToken, hload]
  rw [if_pos hcond]
  simp only [hrt]

theorem expired_within_margin (now : Int) (rec : TokenRecord)
    (hexp : rec.expiry_date < now) : now ≥ rec.expiry_date - SAFETY_MARGIN := by
  have hm : SAFETY_MARGIN = 30000 := rfl
  omega

/-- C7: saveToken followed immediately by loadToken returns the very record
that was saved: the structured record round-trips through the persisted
serialization (parse after serialize is the identity, and the freshly
written file is the one read back). -/
theorem saveToken_loadToken_roundtrip (s : Store) (email : String) (r : TokenRecord) :
    parseToken (serializeToken r) = some r
    ∧ loadToken (saveToken s email r) email = some r :=
  ⟨parse_serialize r, load_save s email r⟩

/-- C8: deleteToken always succeeds and is idempotent, and deleteToken
followed by loadToken yields "not found", both for a never-existing account
(arbitrary store `s`) and for a previously-existing one (a store
`saveToken s email r`). -/
theorem deleteToken_idempotent_load_none (s : Store) (email : String) :
    loadToken (deleteToken s email) email = none
    ∧ deleteToken (deleteToken s email) email = deleteToken s email
    ∧ (∀ r : TokenRecord,
        loadToken (deleteToken (saveToken s email r) email) email = none) := by
  refine ⟨load_delete s email, ?_, fun r => load_delete (saveToken s email r) email⟩
  simp [deleteToken, List.filter_filter]

/-- C9: the store addresses each account through the deterministic,
filesystem-safe file name `tokenFileName`: the sanitized email (every
non-alphanumeric character replaced by the fixed separator `-`, alphanumeric
characters kept) followed by the fixed `.token.json` suffix; saveToken
creates the containing directory; and any email with the same file name is
addressed by save, load and delete through that same file. -/
theorem tokenFileName_addressing (email : String) (s : Store) (r : TokenRecord) :
    tokenFileName email = sanitizeEmail email ++ ".token.json"
    ∧ (∀ c : Char, c.isAlphanum = false → sanitizeChar c = '-')
    ∧ (∀ c : Char, c.isAlphanum = true → sanitizeChar c = c)
    ∧ (sanitizeEmail email).data = email.data.map sanitizeChar
    ∧ tokenFileName "test@example.com" = "test-example-com.token.json"
    ∧ (saveToken s email r).dirExists = true
    ∧ (∀ email2 : String, tokenFileName email2 = tokenFileName email →
        loadToken (saveToken s email r) email2 = some r
        ∧ loadToken (deleteToken s email) email2 = none) := by
  refine ⟨rfl, ?_, ?_, rfl, by decide, rfl, ?_⟩
  · intro c hc
    simp [sanitizeChar, hc]
  · intro c hc
    simp [sanitizeChar, hc]
  · intro email2 h
    constructor
    · show loadFile (saveToken s email r) (tokenFileName email2) = some r
      rw [h]
      exact loadFile_save s email r
    · show loadFile (deleteToken s email) (tokenFileName email2) = none
      rw [h]
      exact loadFile_delete s email

/-- C9 witness: for the concrete account a@x.com, saving then loading through
the shared file name returns the record, and deleting then loading through it
yields "not found". -/
theorem tokenFileName_addressing_witness :
    loadToken (saveToken emptyStore "a@x.com" recNear) "a@x.com" = some recNear
    ∧ loadToken (deleteToken emptyStore "a@x.com") "a@x.com" = none :=
  (tokenFileName_addressing "a@x.com" emptyStore recNear).2.2.2.2.2.2 "a@x.com" rfl

/-- C2 counterexample: the account a@x.com holds a record whose expiry
(1000001) is strictly in the future of the call instant (1000000), yet it
lies within the safety margin, so validateToken does not return VALID and
does write to the store (here the refresh fails and the record is purged). -/
theorem validateToken_strictly_future_counterexample :
    (1000000 : Int) < recNear.expiry_date
    ∧ loadToken storeNear "a@x.com" = some recNear
    ∧ (validateToken refFail 1000000 storeNear "a@x.com").1.status ≠ StatusKind.VALID
    ∧ (validateToken refFail 1000000 storeNear "a@x.com").2.1 ≠ storeNear := by
  decide

/-- C2 (amended): with a stored record, validateToken returns status VALID
exactly when the call instant is before `expiry_date - SAFETY_MARGIN` (the
algorithm's expiry test), and in that case it returns the stored record
unmodified, leaves the store untouched (no write), and makes no refresh
attempt. -/
theorem validateToken_valid_iff_outside_margin
    (refresh : String → Option TokenRecord) (now : Int) (s : Store)
    (email : String) (rec : TokenRecord)
    (hload : loadToken s email = some rec) :
    ((validateToken refresh now s email).1.status = StatusKind.VALID
      ↔ now < rec.expiry_date - SAFETY_MARGIN)
    ∧ (now < rec.expiry_date - SAFETY_MARGIN →
        validateToken refresh now s email
          = (⟨true, StatusKind.VALID, some rec, none⟩, s, 0)) := by
  by_cases hc : now ≥ rec.expiry_date - SAFETY_MARGIN
  · constructor
    · constructor
      · intro hst
        exfalso
        rcases hrt : rec.refresh_token with _ | rt
        · rw [vt_no_refresh_token refresh now s email rec hload hc hrt] at hst
          simp at hst
        · rcases href : refresh rt with _ | fresh
          · rw [vt_refresh_failed refresh now s email rec rt hload hc hrt href] at hst
            simp at hst
          · rw [vt_refreshed refresh now s email rec fresh rt hload hc hrt href] at hst
            simp at hst
      · intro hlt
        omega
    · intro hlt
      omega
  · exact ⟨by rw [vt_valid refresh now s email rec hload hc]; simpa using (by omega : now < rec.expiry_date - SAFETY_MARGIN),
           fun _ => vt_valid refresh now s email rec hload hc⟩

/-- C2 witness: the concrete account c@x.com, far from expiry at instant 0,
satisfies the amended statement. -/
theorem validateToken_valid_iff_outside_margin_witness :
    ((validateToken refFail 0 storeFresh "c@x.com").1.status = StatusKind.VALID
      ↔ (0 : Int) < recFresh.expiry_date - SAFETY_MARGIN)
    ∧ ((0 : Int) < recFresh.expiry_date - SAFETY_MARGIN →
        validateToken refFail 0 storeFresh "c@x.com"
          = (⟨true, StatusKind.VALID, some recFresh, none⟩, storeFresh, 0)) :=
  validateToken_valid_iff_outside_margin refFail 0 storeFresh "c@x.com" recFresh (by decide)

/-- C1: when the stored record for an account is expired, validateToken never
returns status VALID (the expired record is never handed out as the plain
valid token), makes at most one refresh attempt — exactly one whenever a
refresh token is stored — and, whenever it does return a valid token, that
token went through exactly one refresh and its persisted copy is already in
the store when the call returns (refresh-and-persist completes before
return). -/
theorem validateToken_expired_never_unrefreshed
    (refresh : String → Option TokenRecord) (now : Int) (s : Store)
    (email : String) (rec : TokenRecord)
    (hload : loadToken s email = some rec)
    (hexp : rec.expiry_date < now) :
    (validateToken refresh now s email).1.status ≠ StatusKind.VALID
    ∧ (validateToken refresh now s email).2.2 ≤ 1
    ∧ (rec.refresh_token.isSome = true →
        (validateToken refresh now s email).2.2 = 1)
    ∧ ((validateToken refresh now s email).1.valid = true →
        (validateToken refresh now s email).2.2 = 1
        ∧ loadToken (validateToken refresh now s email).2.1 email
            = (validateToken refresh now s email).1.token) := by
  have hc := expired_within_margin now rec hexp
  rcases hrt : rec.refresh_token with _ | rt
  · rw [vt_no_refresh_token refresh now s email rec hload hc hrt]
    refine ⟨by simp, by simp, by simp, by simp⟩
  · rcases href : refresh rt with _ | fresh
    · rw [vt_refresh_failed refresh now s email rec rt hload hc hrt href]
      refine ⟨by simp, by simp, by simp, by simp⟩
    · rw [vt_refreshed refresh now s email rec fresh rt hload hc hrt href]
      refine ⟨by simp, by simp, by simp, ?_⟩
      intro _
      exact ⟨rfl, load_save s email (applyRefresh rec fresh)⟩

/-- C1 witness: the concrete expired account b@x.com, with a provider
accepting its refresh token, satisfies the invariant. -/
theorem validateToken_expired_never_unrefreshed_witness :
    (validateToken refOk 3600000 storeExpired "b@x.com").1.status ≠ StatusKind.VALID
    ∧ (validateToken refOk 3600000 storeExpired "b@x.com").2.2 ≤ 1
    ∧ (recExpired.refresh_token.isSome = true →
        (validateToken refOk 3600000 storeExpired "b@x.com").2.2 = 1)
    ∧ ((validateToken refOk 3600000 storeExpired "b@x.com").1.valid = true →
        (validateToken refOk 3600000 storeExpired "b@x.com").2.2 = 1
        ∧ loadToken (validateToken refOk 3600000 storeExpired "b@x.com").2.1 "b@x.com"
            = (validateToken refOk 3600000 storeExpired "b@x.com").1.token) :=
  validateToken_expired_never_unrefreshed refOk 3600000 storeExpired "b@x.com"
    recExpired (by decide) (by decide)

/-- C3: for an expired record whose refresh token the provider accepts with a
fresh (future-dated) token, validateToken returns valid/REFRESHED carrying
the new record, whose expiry is in the future; the new record is persisted so
the next loadToken returns it; and the old refresh token is preserved when
the provider does not reissue one. -/
theorem validateToken_refresh_success
    (refresh : String → Option TokenRecord) (now : Int) (s : Store)
    (email : String) (rec fresh : TokenRecord) (rt : String)
    (hload : loadToken s email = some rec)
    (hexp : rec.expiry_date < now)
    (hrt : rec.refresh_token = some rt)
    (href : refresh rt = some fresh)
    (hfresh : now < fresh.expiry_date) :
    validateToken refresh now s email
      = (⟨true, StatusKind.REFRESHED, some (applyRefresh rec fresh), none⟩,
         saveToken s email (applyRefresh rec fresh), 1)
    ∧ now < (applyRefresh rec fresh).expiry_date
    ∧ loadToken (saveToken s email (applyRefresh rec fresh)) email
        = some (applyRefresh rec fresh)
    ∧ (fresh.refresh_token = none →
        (applyRefresh rec fresh).refresh_token = rec.refresh_token) := by
  have hc := expired_within_margin now rec hexp
  refine ⟨vt_refreshed refresh now s email rec fresh rt hload hc hrt href,
          by simpa [applyRefresh] using hfresh,
          load_save s email (applyRefresh rec fresh),
          ?_⟩
  intro h
  simp [applyRefresh, h]

/-- C3 witness: the concrete expired account b@x.com refreshed through the
provider refOk, which reissues the same refresh token R2. -/
theorem validateToken_refresh_success_witness :
    validateToken refOk 3600000 storeExpired "b@x.com"
      = (⟨true, StatusKind.REFRESHED, some (applyRefresh recExpired freshTok), none⟩,
         saveToken storeExpired "b@x.com" (applyRefresh recExpired freshTok), 1)
    ∧ (3600000 : Int) < (applyRefresh recExpired freshTok).expiry_date
    ∧ loadToken (saveToken storeExpired "b@x.com" (applyRefresh recExpired freshTok)) "b@x.com"
        = some (applyRefresh recExpired freshTok)
    ∧ (freshTok.refresh_token = none →
        (applyRefresh recExpired freshTok).refresh_token = recExpired.refresh_token) :=
  validateToken_refresh_success refOk 3600000 storeExpired "b@x.com"
    recExpired freshTok "R2" (by decide) (by decide) (by decide) (by decide) (by decide)

/-- C4: for an expired record whose refresh the provider rejects,
validateToken deletes the stored record, returns invalid/REFRESH_FAILED with
a reason after exactly one refresh attempt (no automatic retry), and a
subsequent loadToken for the account yields "not found". -/
theorem validateToken_refresh_failure
    (refresh : String → Option TokenRecord) (now : Int) (s : Store)
    (email : String) (rec : TokenRecord) (rt : String)
    (hload : loadToken s email = some rec)
    (hexp : rec.expiry_date < now)
    (hrt : rec.refresh_token = some rt)
    (href : refresh rt = none) :
    validateToken refresh now s email
      = (⟨false, StatusKind.REFRESH_FAILED, none, some "Token refresh failed"⟩,
         deleteToken s email, 1)
    ∧ loadToken (deleteToken s email) email = none := by
  have hc := expired_within_margin now rec hexp
  exact ⟨vt_refresh_failed refresh now s email rec rt hload hc hrt href,
         load_delete s email⟩

/-- C4 witness: the concrete expired account b@x.com whose refresh the
provider refFail rejects. -/
theorem validateToken_refresh_failure_witness :
    validateToken refFail 3600000 storeExpired "b@x.com"
      = (⟨false, StatusKind.REFRESH_FAILED, none, some "Token refresh failed"⟩,
         deleteToken storeExpired "b@x.com", 1)
    ∧ loadToken (deleteToken storeExpired "b@x.com") "b@x.com" = none :=
  validateToken_refresh_failure refFail 3600000 storeExpired "b@x.com"
    recExpired "R2" (by decide) (by decide) (by decide) (by decide)

/-- C5: when the account was never authenticated (no stored record) or its
refresh fails, acquiring a calendar client fails with the AUTH_REQUIRED
CalendarError instead of yielding a client; and whenever validateToken
reports valid with a token, acquiring the client succeeds with that token as
credentials, without that error. -/
theorem getCalendarClient_auth_contract
    (refresh : String → Option TokenRecord) (now : Int) (s : Store)
    (email : String) :
    (loadToken s email = none →
      getCalendarClient refresh now s email
        = (CalClient.calError "AUTH_REQUIRED", s))
    ∧ (∀ rec rt, loadToken s email = some rec → rec.expiry_date < now →
        rec.refresh_token = some rt → refresh rt = none →
        getCalendarClient refresh now s email
          = (CalClient.calError "AUTH_REQUIRED", deleteToken s email))
    ∧ (∀ t, (validateToken refresh now s email).1.valid = true →
        (validateToken refresh now s email).1.token = some t →
        (getCalendarClient refresh now s email).1 = CalClient.client t) := by
  refine ⟨?_, ?_, ?_⟩
  · intro h
    rw [getCalendarClient, vt_no_token refresh now s email h]
  · intro rec rt hload hexp hrt href
    have hc := expired_within_margin now rec hexp
    rw [getCalendarClient, vt_refresh_failed refresh now s email rec rt hload hc hrt href]
  · intro t hv htok
    rw [getCalendarClient]
    rcases hvt : validateToken refresh now s email with ⟨ts, sAfter, n⟩
    rw [hvt] at hv htok
    simp only at hv htok
    simp [hv, htok]

/-- C5 witness: the never-authenticated account a@x.com of an empty store is
refused with AUTH_REQUIRED. -/
theorem getCalendarClient_auth_contract_witness :
    getCalendarClient refFail 0 emptyStore "a@x.com"
      = (CalClient.calError "AUTH_REQUIRED", emptyStore) :=
  (getCalendarClient_auth_contract refFail 0 emptyStore "a@x.com").1 rfl

/-- C6 counterexample: an operation that fails with 401 while the fresh
validateToken yields no valid token is not retried at all — the wrapper
performs zero retries here, not exactly one. -/
theorem handleCalendarOperation_no_retry_counterexample :
    opAuthFail 0 = Except.error ⟨401, "Unauthorized"⟩
    ∧ (handleCalendarOperation noTokenStatus opAuthFail).2.1 = 1
    ∧ (handleCalendarOperation noTokenStatus opAuthFail).2.1 ≠ 2 :=
  ⟨rfl, rfl, by decide⟩

/-- C6 (amended): on an authorization failure (code 401 or 403) the wrapper
retries the operation at most once — exactly once, immediately, when the
fresh validateToken yields a valid token, in which case whatever the single
retry produces (in particular a second authorization failure) is returned or
propagated unchanged; when the fresh validateToken yields no valid token
there is no retry and the original error propagates; the operation is never
invoked a third time. -/
theorem handleCalendarOperation_single_retry
    {T : Type} (ts : TokenStatus) (op : Nat → Except ApiError T) (e : ApiError)
    (h0 : op 0 = Except.error e)
    (hauth : e.code = 401 ∨ e.code = 403) :
    (handleCalendarOperation ts op).2.1 ≤ 2
    ∧ (ts.valid = true → ts.token.isSome = true →
        handleCalendarOperation ts op = (op 1, 2, 1))
    ∧ (¬(ts.valid = true ∧ ts.token.isSome = true) →
        handleCalendarOperation ts op = (Except.error e, 1, 1))
    ∧ (∀ e2 : ApiError, ts.valid = true → ts.token.isSome = true →
        op 1 = Except.error e2 →
        (handleCalendarOperation ts op).1 = Except.error e2) := by
  have hcode : (e.code == 401 || e.code == 403) = true := by
    rcases hauth with h | h <;> simp [h]
  simp only [handleCalendarOperation, h0]
  rw [if_pos hcode]
  by_cases hb : (ts.valid && ts.token.isSome) = true
  · rw [if_pos hb]
    have hval : ts.valid = true ∧ ts.token.isSome = true := by simpa using hb
    refine ⟨by simp, fun _ _ => rfl, fun hcon => absurd hval hcon, ?_⟩
    intro e2 _ _ h1op
    simpa using h1op
  · rw [if_neg hb]
    refine ⟨by simp, ?_, fun _ => rfl, ?_⟩
    · intro h1 h2
      exact absurd (by simp [h1, h2]) hb
    · intro e2 h1 h2 _
      exact absurd (by simp [h1, h2] : (ts.valid && ts.token.isSome) = true) hb

/-- C6 witness: an operation failing 401 on both invocations, with a fresh
validation that does yield a valid token, is retried exactly once and the
second failure propagates. -/
theorem handleCalendarOperation_single_retry_witness :
    (handleCalendarOperation validStatus opAuthFail).2.1 ≤ 2
    ∧ (validStatus.valid = true → validStatus.token.isSome = true →
        handleCalendarOperation validStatus opAuthFail = (opAuthFail 1, 2, 1))
    ∧ (¬(validStatus.valid = true ∧ validStatus.token.isSome = true) →
        handleCalendarOperation validStatus opAuthFail
          = (Except.error ⟨401, "Unauthorized"⟩, 1, 1))
    ∧ (∀ e2 : ApiError, validStatus.valid = true → validStatus.token.isSome = true →
        opAuthFail 1 = Except.error e2 →
        (handleCalendarOperation validStatus opAuthFail).1 = Except.error e2) :=
  handleCalendarOperation_single_retry validStatus opAuthFail
    ⟨401, "Unauthorized"⟩ rfl (Or.inl rfl)

/-- C10: the wrapper's re-validation retry fires only when the provider
error's code is exactly 401 or 403: any other error propagates unchanged
with no validateToken call; when the code is 401 or 403 but the fresh
validation yields no valid token, the original provider error is rethrown
(one validateToken call, no retry, not an AUTH_REQUIRED error); and when the
validation yields a valid token the operation is run a second time. -/
theorem handleCalendarOperation_retry_condition
    {T : Type} (ts : TokenStatus) (op : Nat → Except ApiError T) (e : ApiError)
    (h0 : op 0 = Except.error e) :
    (e.code ≠ 401 → e.code ≠ 403 →
      handleCalendarOperation ts op = (Except.error e, 1, 0))
    ∧ ((e.code = 401 ∨ e.code = 403) →
        ¬(ts.valid = true ∧ ts.token.isSome = true) →
        handleCalendarOperation ts op = (Except.error e, 1, 1))
    ∧ ((e.code = 401 ∨ e.code = 403) →
        ts.valid = true → ts.token.isSome = true →
        handleCalendarOperation ts op = (op 1, 2, 1)) := by
  simp only [handleCalendarOperation, h0]
  refine ⟨?_, ?_, ?_⟩
  · intro h1 h2
    rw [if_neg (by simp [h1, h2])]
  · intro hauth hcon
    have hcode : (e.code == 401 || e.code == 403) = true := by
      rcases hauth with h | h <;> simp [h]
    rw [if_pos hcode]
    rw [if_neg ?_]
    intro hb
    exact hcon (by simpa using hb)
  · intro hauth h1 h2
    have hcode : (e.code == 401 || e.code == 403) = true := by
      rcases hauth with h | h <;> simp [h]
    rw [if_pos hcode]
    rw [if_pos (by simp [h1, h2] : (ts.valid && ts.token.isSome) = true)]

/-- C10 witness: a 500 error propagates unchanged with no validateToken call
and no retry. -/
theorem handleCalendarOperation_retry_condition_witness :
    handleCalendarOperation noTokenStatus opServerFail
      = (Except.error ⟨500, "Server error"⟩, 1, 0) :=
  (handleCalendarOperation_retry_condition noTokenStatus opServerFail
    ⟨500, "Server error"⟩ rfl).1 (by decide) (by decide)
